import Mathlib

/-!
Shallow embedding of `src/main.rs` of the rsDungeon repository: a single
linear Vulkan program that fills one GPU buffer with a random RGBA color
and writes the readback as a PNG.

The host program is embedded as a function `run` from an environment
(the outcomes of every external call: the random number generator, the
Vulkan driver, the allocator, the filesystem) to a result together with
the ordered list of observable events the program performed.  Machine
integers are modelled as `Nat` with explicit `% 2 ^ 32` where the source
uses `u32` shifts.  Fallible Rust calls return `Except`‑style outcomes:
each call guarded by `?` in the source aborts `run` with its error, while
the three calls whose `Result` the source discards
(`bind_buffer_memory` line 195, `queue_submit` line 252,
`image::save_buffer` lines 266‑272) never abort it.
-/

namespace RsDungeon

/-- Line 66: `let width: u64 = 1280;` -/
def width : ℕ := 1280

/-- Line 67: `let height: u64 = 720;` -/
def height : ℕ := 720

/-- Line 68: `let value_count: u64 = width * height;` -/
def value_count : ℕ := width * height

/-- Model of `rand::thread_rng().gen_range(lo..hi)` (lines 69‑71): the
library contract is a uniformly sampled integer in `[lo, hi)`; the `seed`
argument selects which member of the range a particular run obtains. -/
def gen_range (lo hi seed : ℕ) : ℕ := lo + seed % (hi - lo)

/-- Model of ash's `vk::InstanceCreateInfo` (lines 94‑138), keeping the
two fields the program touches: the requested layer list
(`enabled_layer_count` / `pp_enabled_layer_names`) and whether `p_next`
points at a `DebugUtilsMessengerCreateInfoEXT`. -/
structure InstanceCreateInfo where
  enabledLayerNames : List String
  hasDebugNext : Bool
deriving DecidableEq, Repr

/-- `vk::InstanceCreateInfo::default()` (line 95): no layers, null `p_next`. -/
def InstanceCreateInfo.empty : InstanceCreateInfo := ⟨[], false⟩

/-- Model of the ash 0.38 setter
`pub fn enabled_layer_names(mut self, ...) -> Self` on
`vk::InstanceCreateInfo`: the struct derives `Copy`, the setter consumes
`self` by value and returns the updated copy.  It does not mutate the
receiver. -/
def InstanceCreateInfo.enabled_layer_names
    (self : InstanceCreateInfo) (names : List String) : InstanceCreateInfo :=
  { self with enabledLayerNames := names }

/-- Line 100 / 112: the layer name string `"VK_LAYER_KHRONOS_validation"`. -/
def validation_layer_name : String := "VK_LAYER_KHRONOS_validation"

/-- Lines 109‑117: the loop that scans the enumerated instance layer
properties and sets `validation_layer_found` when the Khronos validation
layer occurs in the list. -/
def validation_layer_found (layerProps : List String) : Bool :=
  layerProps.contains validation_layer_name

/-- Lines 94‑138, the construction of the `InstanceCreateInfo` passed to
`create_instance`.  When validation is enabled the source

* computes `validation_layer_found` (lines 109‑117) and never reads it;
* assigns `create_info.p_next = &debug_create_info ...` directly
  (lines 135‑136), which takes effect;
* calls `create_info.enabled_layer_names(&validation_layer_names);`
  (line 137) as a statement.  Because the ash setter consumes a `Copy` of
  `self` and returns the updated struct, and the returned value is
  discarded, this statement leaves `create_info` unchanged. -/
def instance_create_info (validationEnabled : Bool) (layerProps : List String) :
    InstanceCreateInfo :=
  let create_info := InstanceCreateInfo.empty
  if validationEnabled then
    let _found := validation_layer_found layerProps
    let create_info := { create_info with hasDebugNext := true }
    let _ := create_info.enabled_layer_names [validation_layer_name]
    create_info
  else
    create_info

/-- Environment of one run: the outcome of every external interaction.
`...Ok` fields say whether the corresponding fallible call succeeds;
lists and numbers are the data those calls return.  `initByte i` is the
content of byte `i` of the allocation's memory before the GPU executes
the recorded commands.  `validationEnabled` is `cfg!(debug_assertions)`
(line 25), fixed at build time. -/
structure Env where
  redSeed : ℕ
  greenSeed : ℕ
  blueSeed : ℕ
  validationEnabled : Bool
  entryLoadOk : Bool
  layerPropsOk : Bool
  layerProps : List String
  instanceOk : Bool
  physDevsOk : Bool
  physicalDevices : List ℕ
  deviceOk : Bool
  allocatorOk : Bool
  bufferOk : Bool
  allocateOk : Bool
  allocOffset : ℕ
  allocSize : ℕ
  bindOk : Bool
  poolOk : Bool
  cmdBufsOk : Bool
  cmdBuffers : List ℕ
  beginOk : Bool
  endOk : Bool
  fenceOk : Bool
  submitOk : Bool
  waitOk : Bool
  mappedOk : Bool
  saveOk : Bool
  freeOk : Bool
  initByte : ℕ → ℕ

/-- Line 69: `let red: u32 = rand::thread_rng().gen_range(0..255);` -/
def red (env : Env) : ℕ := gen_range 0 255 env.redSeed

/-- Line 70: `let green: u32 = rand::thread_rng().gen_range(0..255);` -/
def green (env : Env) : ℕ := gen_range 0 255 env.greenSeed

/-- Line 71: `let blue: u32 = rand::thread_rng().gen_range(0..255);` -/
def blue (env : Env) : ℕ := gen_range 0 255 env.blueSeed

/-- Line 72: `let alpha: u32 = 255;` -/
def alpha : ℕ := 255

/-- Line 73: `let value: u32 = red | green << 8 | blue << 16 | alpha << 24;`
with `u32` shifts modelled as `Nat` shifts reduced modulo `2 ^ 32`. -/
def value (env : Env) : ℕ :=
  red env ||| (green env <<< 8) % 2 ^ 32 ||| (blue env <<< 16) % 2 ^ 32 |||
    (alpha <<< 24) % 2 ^ 32

/-- Errors `main` can return.  Each constructor stands for the failure of
one `?`‑guarded call, in source order. -/
inductive Err where
  | entryLoad
  | enumerateLayers
  | createInstance
  | enumeratePhysicalDevices
  | noPhysicalDevice
  | createDevice
  | createAllocator
  | createBuffer
  | allocate
  | createCommandPool
  | allocateCommandBuffers
  | noCommandBuffers
  | beginCommandBuffer
  | endCommandBuffer
  | createFence
  | waitForFences
  | hostNotVisible
  | freeAllocation
deriving DecidableEq, Repr

/-- The `anyhow` context message attached to an error, when the source
attaches one (lines 146, 220, 263). -/
def Err.message : Err → Option String
  | .noPhysicalDevice => some "No physical Device Found"
  | .noCommandBuffers => some "No Command Buffers"
  | .hostNotVisible => some "Host cannot access buffer"
  | _ => none

/-- Observable events of a run, in the order the host performs the
corresponding calls.  An event is recorded when the call completes; a
`?`‑guarded call that fails aborts the run without recording its event,
while the three calls whose `Result` is discarded record their event
whether or not they succeed. -/
inductive Event where
  | createInstance (layers : List String) (debugNext : Bool)
  | selectPhysicalDevice (d : ℕ)
  | createDevice
  | createAllocator
  | createBuffer (size : ℕ)
  | allocate (offset size : ℕ)
  | bindBufferMemory (memoryOffset : ℕ)
  | createCommandPool
  | allocateCommandBuffers (count : ℕ)
  | beginCommandBuffer
  | cmdFillBuffer (dstOffset size data : ℕ)
  | endCommandBuffer
  | createFence
  | queueSubmit (submitCount : ℕ)
  | waitForFences (waitAll : Bool) (timeout : ℕ)
  | readback
  | savePNG (path : String) (w h : ℕ)
  | destroyFence
  | destroyCommandPool
  | freeAllocation
  | dropAllocator
  | destroyBuffer
  | destroyDevice
  | destroyInstance
deriving DecidableEq, Repr

/-- `u64::MAX`, the timeout passed to `wait_for_fences` (line 257). -/
def u64_max : ℕ := 2 ^ 64 - 1

/-- The ordered sequence of observable calls `main` performs when every
fallible call succeeds, with the arguments the source passes (lines
64‑284 in order): instance creation, first‑device selection, device,
allocator, buffer of `value_count * size_of::<u32>()` bytes, allocation,
`bind_buffer_memory` at the allocation's offset, command pool, command
buffers, recording (`begin`, the single `cmd_fill_buffer` with
`dst_offset = allocation.offset()`, `size = allocation.size()` and the
packed `value`, `end`), fence, one `queue_submit`, the unbounded
`wait_for_fences(_, true, u64::MAX)`, the mapped readback,
`image::save_buffer("tmp/image.png", _, width, height, Rgba8)`, and the
teardown sequence of lines 276‑282. -/
def fullTrace (env : Env) : List Event :=
  [Event.createInstance (instance_create_info env.validationEnabled env.layerProps).enabledLayerNames
      (instance_create_info env.validationEnabled env.layerProps).hasDebugNext,
   Event.selectPhysicalDevice (env.physicalDevices.headD 0),
   Event.createDevice,
   Event.createAllocator,
   Event.createBuffer (value_count * 4),
   Event.allocate env.allocOffset env.allocSize,
   Event.bindBufferMemory env.allocOffset,
   Event.createCommandPool,
   Event.allocateCommandBuffers env.cmdBuffers.length,
   Event.beginCommandBuffer,
   Event.cmdFillBuffer env.allocOffset env.allocSize (value env),
   Event.endCommandBuffer,
   Event.createFence,
   Event.queueSubmit 1,
   Event.waitForFences true u64_max,
   Event.readback,
   Event.savePNG "tmp/image.png" width height,
   Event.destroyFence,
   Event.destroyCommandPool,
   Event.freeAllocation,
   Event.dropAllocator,
   Event.destroyBuffer,
   Event.destroyDevice,
   Event.destroyInstance]

/-- The embedding of `fn main()` (lines 64‑284): a straight‑line run over
the environment, returning `main`'s result together with the ordered
event trace.  Every `if` mirrors one `?` in the source; the `match`es
mirror the two `.next().context(...)` head extractions (lines 143‑146 and
215‑221).  A run that aborts after `k` completed calls has performed
exactly the first `k` events of `fullTrace`, hence the `take` prefixes in
the error branches.  `bind_buffer_memory` (line 195), `queue_submit`
(line 252) and `image::save_buffer` (lines 266‑272) appear in no `if`:
the source discards their `Result`, so their outcome never alters
control flow. -/
def run (env : Env) : Except Err Unit × List Event :=
  if !env.entryLoadOk then (.error .entryLoad, []) else
  if env.validationEnabled && !env.layerPropsOk then (.error .enumerateLayers, []) else
  if !env.instanceOk then (.error .createInstance, []) else
  if !env.physDevsOk then (.error .enumeratePhysicalDevices, (fullTrace env).take 1) else
  match env.physicalDevices with
  | [] => (.error .noPhysicalDevice, (fullTrace env).take 1)
  | _ :: _ =>
  if !env.deviceOk then (.error .createDevice, (fullTrace env).take 2) else
  if !env.allocatorOk then (.error .createAllocator, (fullTrace env).take 3) else
  if !env.bufferOk then (.error .createBuffer, (fullTrace env).take 4) else
  if !env.allocateOk then (.error .allocate, (fullTrace env).take 5) else
  if !env.poolOk then (.error .createCommandPool, (fullTrace env).take 7) else
  if !env.cmdBufsOk then (.error .allocateCommandBuffers, (fullTrace env).take 8) else
  match env.cmdBuffers with
  | [] => (.error .noCommandBuffers, (fullTrace env).take 9)
  | _ :: _ =>
  if !env.beginOk then (.error .beginCommandBuffer, (fullTrace env).take 9) else
  if !env.endOk then (.error .endCommandBuffer, (fullTrace env).take 11) else
  if !env.fenceOk then (.error .createFence, (fullTrace env).take 12) else
  if !env.waitOk then (.error .waitForFences, (fullTrace env).take 14) else
  if !env.mappedOk then (.error .hostNotVisible, (fullTrace env).take 15) else
  if !env.freeOk then (.error .freeAllocation, (fullTrace env).take 19) else
  (.ok (), fullTrace env)

/-- All `?`‑guarded calls of the run succeed: `Entry::load` (line 76),
layer enumeration when validation is on (line 103), `create_instance`
(139), physical‑device enumeration and its nonemptiness (143‑146),
`create_device` (157), `Allocator::new` (164), `create_buffer` (178),
`allocate` (193), `create_command_pool` (205), `allocate_command_buffers`
and its nonemptiness (215‑221), `begin_command_buffer` (228),
`end_command_buffer` (241), `create_fence` (246), `wait_for_fences`
(257), `mapped_slice` (261‑263) and `allocator.free` (278).  The
discarded‑`Result` calls — `bind_buffer_memory`, `queue_submit`,
`image::save_buffer` — do not appear. -/
def allOk (env : Env) : Bool :=
  env.entryLoadOk && (!env.validationEnabled || env.layerPropsOk) &&
  env.instanceOk && env.physDevsOk && !env.physicalDevices.isEmpty &&
  env.deviceOk && env.allocatorOk && env.bufferOk && env.allocateOk &&
  env.poolOk && env.cmdBufsOk && !env.cmdBuffers.isEmpty &&
  env.beginOk && env.endOk && env.fenceOk && env.waitOk && env.mappedOk &&
  env.freeOk

/-- Contents of byte `i` of the mapped allocation after the submitted
work executed (read back at lines 261‑263).  `cmd_fill_buffer`
(lines 231‑239) writes `value` as a 4‑byte little‑endian word repeatedly
over buffer bytes `[dstOffset, dstOffset + size)` with
`dstOffset = allocation.offset()` and `size = allocation.size()`.  The
buffer is bound at `allocation.offset()` inside the device memory
(line 195), so buffer byte `b` is allocation byte `b` and the mapped
slice exposes allocation bytes `[0, allocation.size())`.  The fill is
executed only if the submission (line 252) succeeded; otherwise the
memory keeps its prior contents. -/
def mappedByte (env : Env) (i : ℕ) : ℕ :=
  if env.submitOk = true ∧ env.allocOffset ≤ i ∧ i < env.allocOffset + env.allocSize then
    value env / 2 ^ (8 * ((i - env.allocOffset) % 4)) % 256
  else
    env.initByte i

/-- Pixel `p` of the readback data, packed as the little‑endian `u32`
formed from data bytes `4p ... 4p+3`; `image::save_buffer` with
`ColorType::Rgba8` (lines 266‑272) takes those four bytes as the pixel's
R, G, B, A channels, so a pixel "equals the packed fill value" exactly
when this word equals `value`. -/
def pixelWord (env : Env) (p : ℕ) : ℕ :=
  mappedByte env (4 * p) + 2 ^ 8 * mappedByte env (4 * p + 1) +
    2 ^ 16 * mappedByte env (4 * p + 2) + 2 ^ 24 * mappedByte env (4 * p + 3)

/-- An image as written by `image::save_buffer`: its dimensions and the
packed word of each pixel. -/
structure Image where
  w : ℕ
  h : ℕ
  pixel : ℕ → ℕ

/-- The image `image::save_buffer("tmp/image.png", data, width, height,
Rgba8)` (lines 266‑272) writes: dimensions are the constant `width` and
`height`, pixel `p` comes from data bytes `4p ... 4p+3`. -/
def savedImage (env : Env) : Image :=
  ⟨width, height, fun p => pixelWord env p⟩

/-- Event classifiers used to count calls of one kind in a trace. -/
def Event.isSave : Event → Bool
  | .savePNG _ _ _ => true
  | _ => false

/-- Recognizes the `cmd_fill_buffer` event. -/
def Event.isFill : Event → Bool
  | .cmdFillBuffer _ _ _ => true
  | _ => false

/-- Recognizes the `queue_submit` event. -/
def Event.isSubmit : Event → Bool
  | .queueSubmit _ => true
  | _ => false

/-- Recognizes the `create_buffer` event. -/
def Event.isCreateBuffer : Event → Bool
  | .createBuffer _ => true
  | _ => false

/-- Recognizes the teardown events (lines 276‑282: `destroy_fence`,
`destroy_command_pool`, `allocator.free`, `drop(allocator)`,
`destroy_buffer`, `destroy_device`, `destroy_instance`). -/
def Event.isDestroy : Event → Bool
  | .destroyFence => true
  | .destroyCommandPool => true
  | .freeAllocation => true
  | .dropAllocator => true
  | .destroyBuffer => true
  | .destroyDevice => true
  | .destroyInstance => true
  | _ => false

lemma red_lt (env : Env) : red env < 255 := by
  unfold red gen_range; omega

lemma green_lt (env : Env) : green env < 255 := by
  unfold green gen_range; omega

lemma blue_lt (env : Env) : blue env < 255 := by
  unfold blue gen_range; omega

/-- The packed fill value as plain arithmetic: the three random channels
occupy disjoint byte positions below the constant alpha byte, so the
bitwise ors of line 73 coincide with addition. -/
lemma value_eq (env : Env) :
    value env = red env + 256 * green env + 65536 * blue env + 4278190080 := by
  have hr := red_lt env
  have hg := green_lt env
  have hb := blue_lt env
  unfold value alpha
  rw [Nat.shiftLeft_eq, Nat.shiftLeft_eq, Nat.shiftLeft_eq,
    Nat.mod_eq_of_lt (by omega : green env * 2 ^ 8 < 2 ^ 32),
    Nat.mod_eq_of_lt (by omega : blue env * 2 ^ 16 < 2 ^ 32),
    Nat.mod_eq_of_lt (by norm_num : (255 : ℕ) * 2 ^ 24 < 2 ^ 32)]
  have h1 : red env ||| green env * 2 ^ 8 = 2 ^ 8 * green env + red env := by
    rw [Nat.lor_comm, Nat.mul_comm,
      ← Nat.mul_add_lt_is_or (by omega : red env < 2 ^ 8) (green env)]
  have h2 : 2 ^ 8 * green env + red env ||| blue env * 2 ^ 16 =
      2 ^ 16 * blue env + (2 ^ 8 * green env + red env) := by
    rw [Nat.lor_comm, Nat.mul_comm,
      ← Nat.mul_add_lt_is_or (by omega : 2 ^ 8 * green env + red env < 2 ^ 16) (blue env)]
  have h3 : 2 ^ 16 * blue env + (2 ^ 8 * green env + red env) ||| 255 * 2 ^ 24 =
      2 ^ 24 * 255 + (2 ^ 16 * blue env + (2 ^ 8 * green env + red env)) := by
    rw [Nat.lor_comm, Nat.mul_comm,
      ← Nat.mul_add_lt_is_or
        (by omega : 2 ^ 16 * blue env + (2 ^ 8 * green env + red env) < 2 ^ 24) 255]
  rw [h1, h2, h3]
  norm_num
  omega

set_option maxHeartbeats 1600000 in
/-- A run in which every fallible call succeeds returns `Ok(())` and
performs exactly the full event sequence. -/
lemma run_eq_full (env : Env) (h : allOk env = true) :
    run env = (.ok (), fullTrace env) := by
  unfold allOk at h
  simp only [Bool.and_eq_true, Bool.or_eq_true, Bool.not_eq_true'] at h
  obtain ⟨⟨⟨⟨⟨⟨⟨⟨⟨⟨⟨⟨⟨⟨⟨⟨⟨h1, h2⟩, h3⟩, h4⟩, h5⟩, h6⟩, h7⟩, h8⟩, h9⟩,
    h10⟩, h11⟩, h12⟩, h13⟩, h14⟩, h15⟩, h16⟩, h17⟩, h18⟩ := h
  rcases hpd : env.physicalDevices with _ | ⟨d, rest⟩
  · rw [hpd] at h5; simp at h5
  rcases hcb : env.cmdBuffers with _ | ⟨c, cs⟩
  · rw [hcb] at h12; simp at h12
  rcases h2 with h2 | h2 <;>
    · unfold run
      rw [h1, h3, h4, h6, h7, h8, h9, h10, h11, h13, h14, h15, h16, h17, h18, hpd, hcb, h2]
      simp

set_option maxHeartbeats 1600000 in
/-- A run that returns `Ok(())` had every `?`‑guarded call succeed. -/
lemma run_ok_fwd (env : Env) (h : (run env).1 = .ok ()) : allOk env = true := by
  unfold run at h
  all_goals cases h1 : env.entryLoadOk <;> (try simp [h1] at h)
  all_goals cases h2 : env.validationEnabled <;> (try simp [h2] at h)
  all_goals cases h3 : env.layerPropsOk <;> (try simp [h3] at h)
  all_goals cases h4 : env.instanceOk <;> (try simp [h4] at h)
  all_goals cases h5 : env.physDevsOk <;> (try simp [h5] at h)
  all_goals rcases hpd : env.physicalDevices with _ | ⟨d, rest⟩ <;> (try simp [hpd] at h)
  all_goals cases h6 : env.deviceOk <;> (try simp [h6] at h)
  all_goals cases h7 : env.allocatorOk <;> (try simp [h7] at h)
  all_goals cases h8 : env.bufferOk <;> (try simp [h8] at h)
  all_goals cases h9 : env.allocateOk <;> (try simp [h9] at h)
  all_goals cases h10 : env.poolOk <;> (try simp [h10] at h)
  all_goals cases h11 : env.cmdBufsOk <;> (try simp [h11] at h)
  all_goals rcases hcb : env.cmdBuffers with _ | ⟨c, cs⟩ <;> (try simp [hcb] at h)
  all_goals cases h12 : env.beginOk <;> (try simp [h12] at h)
  all_goals cases h13 : env.endOk <;> (try simp [h13] at h)
  all_goals cases h14 : env.fenceOk <;> (try simp [h14] at h)
  all_goals cases h15 : env.waitOk <;> (try simp [h15] at h)
  all_goals cases h16 : env.mappedOk <;> (try simp [h16] at h)
  all_goals cases h17 : env.freeOk <;> (try simp [h17] at h)
  all_goals simp_all [allOk]

/-- A run returns `Ok(())` exactly when every `?`‑guarded call succeeds;
the outcomes of the three discarded‑`Result` calls are irrelevant. -/
lemma run_ok_iff (env : Env) : (run env).1 = .ok () ↔ allOk env = true := by
  constructor
  · exact run_ok_fwd env
  · intro h
    rw [run_eq_full env h]

set_option maxHeartbeats 1600000 in
/-- In every run, successful or not, the `image::save_buffer` calls in
the trace are either none (the run aborted before line 266) or exactly
the single fixed‑path call. -/
lemma save_filter (env : Env) :
    (run env).2.filter Event.isSave = [] ∨
      (run env).2.filter Event.isSave = [Event.savePNG "tmp/image.png" width height] := by
  unfold run
  all_goals cases h1 : env.entryLoadOk <;> (try simp [h1, Event.isSave, fullTrace])
  all_goals cases h2 : env.validationEnabled <;> (try simp [h2, Event.isSave, fullTrace])
  all_goals cases h3 : env.layerPropsOk <;> (try simp [h3, Event.isSave, fullTrace])
  all_goals cases h4 : env.instanceOk <;> (try simp [h4, Event.isSave, fullTrace])
  all_goals cases h5 : env.physDevsOk <;> (try simp [h5, Event.isSave, fullTrace])
  all_goals rcases hpd : env.physicalDevices with _ | ⟨d, rest⟩ <;> (try simp [hpd, Event.isSave, fullTrace])
  all_goals cases h6 : env.deviceOk <;> (try simp [h6, Event.isSave, fullTrace])
  all_goals cases h7 : env.allocatorOk <;> (try simp [h7, Event.isSave, fullTrace])
  all_goals cases h8 : env.bufferOk <;> (try simp [h8, Event.isSave, fullTrace])
  all_goals cases h9 : env.allocateOk <;> (try simp [h9, Event.isSave, fullTrace])
  all_goals cases h10 : env.poolOk <;> (try simp [h10, Event.isSave, fullTrace])
  all_goals cases h11 : env.cmdBufsOk <;> (try simp [h11, Event.isSave, fullTrace])
  all_goals rcases hcb : env.cmdBuffers with _ | ⟨c, cs⟩ <;> (try simp [hcb, Event.isSave, fullTrace])
  all_goals cases h12 : env.beginOk <;> (try simp [h12, Event.isSave, fullTrace])
  all_goals cases h13 : env.endOk <;> (try simp [h13, Event.isSave, fullTrace])
  all_goals cases h14 : env.fenceOk <;> (try simp [h14, Event.isSave, fullTrace])
  all_goals cases h15 : env.waitOk <;> (try simp [h15, Event.isSave, fullTrace])
  all_goals cases h16 : env.mappedOk <;> (try simp [h16, Event.isSave, fullTrace])
  all_goals cases h17 : env.freeOk <;> (try simp [h17, Event.isSave, fullTrace])

/-- A reference environment in which every external call succeeds, the
allocator returns an allocation at offset `0` of size
`value_count * 4 = 3686400`, one physical device is enumerated, and the
memory's prior contents are all zero. -/
def okEnv : Env where
  redSeed := 11
  greenSeed := 22
  blueSeed := 33
  validationEnabled := false
  entryLoadOk := true
  layerPropsOk := true
  layerProps := []
  instanceOk := true
  physDevsOk := true
  physicalDevices := [0]
  deviceOk := true
  allocatorOk := true
  bufferOk := true
  allocateOk := true
  allocOffset := 0
  allocSize := 3686400
  bindOk := true
  poolOk := true
  cmdBufsOk := true
  cmdBuffers := [0]
  beginOk := true
  endOk := true
  fenceOk := true
  submitOk := true
  waitOk := true
  mappedOk := true
  saveOk := true
  freeOk := true
  initByte := fun _ => 0

/-- Same as `okEnv` but the allocator places the allocation at offset `4`
within its backing memory block, as a suballocator routinely does. -/
def offsetEnv : Env := { okEnv with allocOffset := 4 }

/-- C3: in every successful run the single recorded fill command has
destination offset `allocation.offset()` and size `allocation.size()`
(lines 231‑239), and when that offset is nonzero the fill does not touch
byte 0 of the buffer: the readback keeps the memory's prior contents
there. -/
theorem fill_uses_allocation_offset_and_size (env : Env) (h : allOk env = true) :
    (run env).2.filter Event.isFill =
      [Event.cmdFillBuffer env.allocOffset env.allocSize (value env)] ∧
    (env.allocOffset ≠ 0 → mappedByte env 0 = env.initByte 0) := by
  constructor
  · rw [run_eq_full env h]
    simp [fullTrace, Event.isFill]
  · intro h0
    have hc : ¬(env.submitOk = true ∧ env.allocOffset ≤ 0 ∧
        0 < env.allocOffset + env.allocSize) := by
      rintro ⟨-, hle, -⟩
      omega
    simp only [mappedByte, if_neg hc]

/-- Witness for `fill_uses_allocation_offset_and_size` at the concrete
environment with allocation offset `4`. -/
theorem fill_uses_allocation_offset_and_size_witness :
    allOk offsetEnv = true ∧
    ((run offsetEnv).2.filter Event.isFill =
      [Event.cmdFillBuffer offsetEnv.allocOffset offsetEnv.allocSize (value offsetEnv)] ∧
    (offsetEnv.allocOffset ≠ 0 → mappedByte offsetEnv 0 = offsetEnv.initByte 0)) :=
  ⟨by decide, fill_uses_allocation_offset_and_size offsetEnv (by decide)⟩

/-- C2 counterexample: `image::save_buffer`'s `Result` (lines 266‑272) is
a fallible step whose error is discarded: in a run in which the PNG write
fails and everything else succeeds, `main` still performs the save call
and returns `Ok(())` instead of propagating the error. -/
theorem save_error_discarded :
    ({ okEnv with saveOk := false } : Env).saveOk = false ∧
    (run { okEnv with saveOk := false }).2.filter Event.isSave =
      [Event.savePNG "tmp/image.png" width height] ∧
    (run { okEnv with saveOk := false }).1 = .ok () := by
  refine ⟨rfl, by decide, rfl⟩

/-- C2 amended: the `?`‑guarded fallible steps propagate their errors —
the run returns `Ok` exactly when all of them succeed — while the
outcomes of `bind_buffer_memory` (line 195), `queue_submit` (line 252)
and `image::save_buffer` (lines 266‑272) are discarded and cannot affect
the run at all. -/
theorem error_propagation_amended :
    (∀ (env : Env) (b s v : Bool),
      run { env with bindOk := b, submitOk := s, saveOk := v } = run env) ∧
    (∀ env : Env, (run env).1 = .ok () ↔ allOk env = true) :=
  ⟨fun _ _ _ _ => rfl, fun env => run_ok_iff env⟩

/-- Witness for `error_propagation_amended` at the reference environment. -/
theorem error_propagation_amended_witness :
    run { okEnv with bindOk := false, submitOk := false, saveOk := false } = run okEnv ∧
    ((run okEnv).1 = .ok () ↔ allOk okEnv = true) :=
  ⟨error_propagation_amended.1 okEnv false false false,
   error_propagation_amended.2 okEnv⟩

/-- C4 counterexample: the allocator is created before the buffer
(lines 164 and 173), yet during teardown the allocator is dropped
(line 279) before the buffer is destroyed (line 280) — the buffer is not
destroyed before the allocator, so teardown is not the exact reverse of
creation order. -/
theorem allocator_dropped_before_buffer_destroyed :
    (run okEnv).2.indexOf Event.createAllocator <
      (run okEnv).2.indexOf (Event.createBuffer (value_count * 4)) ∧
    (run okEnv).2.indexOf Event.dropAllocator <
      (run okEnv).2.indexOf Event.destroyBuffer := by
  decide

/-- C4 amended: in every successful run the teardown events are, in
order: fence, command pool, allocation, allocator, buffer, device,
instance (lines 276‑282) — reverse creation order except that the
allocator is dropped before the buffer is destroyed, and the command
buffer is never individually freed (it is released with its pool). -/
theorem teardown_order_amended (env : Env) (h : allOk env = true) :
    (run env).2.filter Event.isDestroy =
      [Event.destroyFence, Event.destroyCommandPool, Event.freeAllocation,
       Event.dropAllocator, Event.destroyBuffer, Event.destroyDevice,
       Event.destroyInstance] := by
  rw [run_eq_full env h]
  simp [fullTrace, Event.isDestroy]

/-- Witness for `teardown_order_amended` at the reference environment. -/
theorem teardown_order_amended_witness :
    allOk okEnv = true ∧
    (run okEnv).2.filter Event.isDestroy =
      [Event.destroyFence, Event.destroyCommandPool, Event.freeAllocation,
       Event.dropAllocator, Event.destroyBuffer, Event.destroyDevice,
       Event.destroyInstance] :=
  ⟨by decide, teardown_order_amended okEnv (by decide)⟩

/-- Every 4‑byte word based inside the filled range
`[allocation.offset(), allocation.offset() + allocation.size())` reads
back as the packed value once the submitted fill executed: this is the
"one repeated 32‑bit value" semantics of `cmd_fill_buffer`
(lines 231‑239) on the range the source actually passes. -/
lemma word_in_fill_range_eq_value (env : Env) (hs : env.submitOk = true) (k : ℕ)
    (hk : 4 * k + 3 < env.allocSize) :
    mappedByte env (env.allocOffset + 4 * k) +
      2 ^ 8 * mappedByte env (env.allocOffset + 4 * k + 1) +
      2 ^ 16 * mappedByte env (env.allocOffset + 4 * k + 2) +
      2 ^ 24 * mappedByte env (env.allocOffset + 4 * k + 3) = value env := by
  have hv := value_eq env
  have hr := red_lt env
  have hg := green_lt env
  have hb := blue_lt env
  unfold mappedByte
  rw [if_pos ⟨hs, by omega, by omega⟩, if_pos ⟨hs, by omega, by omega⟩,
    if_pos ⟨hs, by omega, by omega⟩, if_pos ⟨hs, by omega, by omega⟩]
  have e0 : (env.allocOffset + 4 * k - env.allocOffset) % 4 = 0 := by omega
  have e1 : (env.allocOffset + 4 * k + 1 - env.allocOffset) % 4 = 1 := by omega
  have e2 : (env.allocOffset + 4 * k + 2 - env.allocOffset) % 4 = 2 := by omega
  have e3 : (env.allocOffset + 4 * k + 3 - env.allocOffset) % 4 = 3 := by omega
  rw [e0, e1, e2, e3]
  norm_num
  omega

/-- C5 counterexample: a successful run with the allocation at offset 4
creates exactly one buffer of `width * height * 4` bytes, yet the buffer
is not filled with the repeated 32‑bit RGBA value: its first 4‑byte word
keeps the memory's prior contents instead of the value, because the
fill of line 235 starts at buffer byte `allocation.offset()`, not at
byte 0. -/
theorem buffer_not_filled_at_nonzero_offset :
    (run offsetEnv).1 = .ok () ∧
    (run offsetEnv).2.filter Event.isCreateBuffer =
      [Event.createBuffer (width * height * 4)] ∧
    pixelWord offsetEnv 0 ≠ value offsetEnv := by
  refine ⟨rfl, by decide, by decide⟩

/-- C5 amended: every successful run creates exactly one buffer, of size
`value_count * size_of::<u32>() = width * height * 4` bytes (lines
173‑179), and destroys it before the process ends (line 280); the single
recorded fill writes one repeated 32‑bit RGBA value over buffer bytes
`[allocation.offset(), allocation.offset() + allocation.size())`, so
every 4‑byte word based in that range equals the packed value, while a
nonzero offset leaves byte 0 of the buffer holding its prior contents —
the whole buffer carries the repeated value only when the allocation's
offset is zero. -/
theorem single_buffer_filled_in_range (env : Env) (h : allOk env = true) :
    (run env).2.filter Event.isCreateBuffer =
      [Event.createBuffer (width * height * 4)] ∧
    Event.destroyBuffer ∈ (run env).2 ∧
    (env.submitOk = true → ∀ k, 4 * k + 3 < env.allocSize →
      mappedByte env (env.allocOffset + 4 * k) +
        2 ^ 8 * mappedByte env (env.allocOffset + 4 * k + 1) +
        2 ^ 16 * mappedByte env (env.allocOffset + 4 * k + 2) +
        2 ^ 24 * mappedByte env (env.allocOffset + 4 * k + 3) = value env) ∧
    (env.allocOffset ≠ 0 → mappedByte env 0 = env.initByte 0) := by
  refine ⟨?_, ?_, ?_, ?_⟩
  · rw [run_eq_full env h]
    simp [fullTrace, Event.isCreateBuffer, value_count]
  · rw [run_eq_full env h]
    simp [fullTrace]
  · intro hs k hk
    exact word_in_fill_range_eq_value env hs k hk
  · intro h0
    have hc : ¬(env.submitOk = true ∧ env.allocOffset ≤ 0 ∧
        0 < env.allocOffset + env.allocSize) := by
      rintro ⟨-, hle, -⟩
      omega
    simp only [mappedByte, if_neg hc]

/-- Witness for `single_buffer_filled_in_range` at the concrete
environment with allocation offset 4. -/
theorem single_buffer_filled_in_range_witness :
    allOk offsetEnv = true ∧
    ((run offsetEnv).2.filter Event.isCreateBuffer =
      [Event.createBuffer (width * height * 4)] ∧
    Event.destroyBuffer ∈ (run offsetEnv).2 ∧
    (offsetEnv.submitOk = true → ∀ k, 4 * k + 3 < offsetEnv.allocSize →
      mappedByte offsetEnv (offsetEnv.allocOffset + 4 * k) +
        2 ^ 8 * mappedByte offsetEnv (offsetEnv.allocOffset + 4 * k + 1) +
        2 ^ 16 * mappedByte offsetEnv (offsetEnv.allocOffset + 4 * k + 2) +
        2 ^ 24 * mappedByte offsetEnv (offsetEnv.allocOffset + 4 * k + 3) =
        value offsetEnv) ∧
    (offsetEnv.allocOffset ≠ 0 → mappedByte offsetEnv 0 = offsetEnv.initByte 0)) :=
  ⟨by decide, single_buffer_filled_in_range offsetEnv (by decide)⟩

/-- C6: every successful run submits exactly one unit of GPU work and
then blocks on the single fence with `wait_all = true` and timeout
`u64::MAX` (lines 249‑258); the readback is the step immediately after
the wait returns. -/
theorem single_submit_then_unbounded_fence_wait (env : Env) (h : allOk env = true) :
    (run env).2.filter Event.isSubmit = [Event.queueSubmit 1] ∧
    (run env).2[13]? = some (Event.queueSubmit 1) ∧
    (run env).2[14]? = some (Event.waitForFences true (2 ^ 64 - 1)) ∧
    (run env).2[15]? = some Event.readback := by
  rw [run_eq_full env h]
  refine ⟨?_, rfl, rfl, rfl⟩
  simp [fullTrace, Event.isSubmit]

/-- Witness for `single_submit_then_unbounded_fence_wait` at the
reference environment. -/
theorem single_submit_then_unbounded_fence_wait_witness :
    allOk okEnv = true ∧
    ((run okEnv).2.filter Event.isSubmit = [Event.queueSubmit 1] ∧
    (run okEnv).2[13]? = some (Event.queueSubmit 1) ∧
    (run okEnv).2[14]? = some (Event.waitForFences true (2 ^ 64 - 1)) ∧
    (run okEnv).2[15]? = some Event.readback) :=
  ⟨by decide, single_submit_then_unbounded_fence_wait okEnv (by decide)⟩

/-- C7: in every run each `image::save_buffer` call uses the constant
path `"tmp/image.png"` and the constant dimensions — no input can change
them — and a successful run performs exactly one such call
(lines 266‑272). -/
theorem png_single_fixed_path (env : Env) :
    (∀ pa wa ha, Event.savePNG pa wa ha ∈ (run env).2 →
      pa = "tmp/image.png" ∧ wa = width ∧ ha = height) ∧
    (allOk env = true →
      (run env).2.filter Event.isSave = [Event.savePNG "tmp/image.png" width height]) := by
  constructor
  · intro pa wa ha hm
    have hf : Event.savePNG pa wa ha ∈ (run env).2.filter Event.isSave :=
      List.mem_filter.mpr ⟨hm, rfl⟩
    rcases save_filter env with hc | hc <;> rw [hc] at hf
    · simp at hf
    · simp at hf
      exact hf
  · intro h
    rw [run_eq_full env h]
    simp [fullTrace, Event.isSave]

/-- Witness for `png_single_fixed_path` at the reference environment. -/
theorem png_single_fixed_path_witness :
    (∀ pa wa ha, Event.savePNG pa wa ha ∈ (run okEnv).2 →
      pa = "tmp/image.png" ∧ wa = width ∧ ha = height) ∧
    (allOk okEnv = true →
      (run okEnv).2.filter Event.isSave = [Event.savePNG "tmp/image.png" width height]) :=
  png_single_fixed_path okEnv

/-- Reference environment in which physical‑device enumeration succeeds
but returns the empty list. -/
def noDevEnv : Env := { okEnv with physicalDevices := [] }

/-- C8: `main` takes the first enumerated physical device (lines
143‑146); when the enumeration is empty it fails with the
`"No physical Device Found"` error and the run stops after instance
creation: no device, no buffer, nothing later is created. -/
theorem first_physical_device_selected (env : Env)
    (h1 : env.entryLoadOk = true)
    (h2 : (env.validationEnabled && !env.layerPropsOk) = false)
    (h3 : env.instanceOk = true)
    (h4 : env.physDevsOk = true) :
    (env.physicalDevices = [] →
      run env = (.error .noPhysicalDevice, (fullTrace env).take 1) ∧
      Err.message .noPhysicalDevice = some "No physical Device Found" ∧
      Event.createDevice ∉ (run env).2 ∧
      Event.createBuffer (value_count * 4) ∉ (run env).2) ∧
    (∀ d rest, env.physicalDevices = d :: rest → allOk env = true →
      (run env).2[1]? = some (Event.selectPhysicalDevice d)) := by
  constructor
  · intro hemp
    have hrun : run env = (.error .noPhysicalDevice, (fullTrace env).take 1) := by
      unfold run
      rw [h1, h2, h3, h4, hemp]
      simp
    refine ⟨hrun, rfl, ?_, ?_⟩ <;> rw [hrun] <;> simp [fullTrace]
  · intro d rest hcons hall
    rw [run_eq_full env hall]
    simp [fullTrace, hcons]

/-- Witness for `first_physical_device_selected` at the empty‑enumeration
environment. -/
theorem first_physical_device_selected_witness :
    (noDevEnv.entryLoadOk = true ∧
      (noDevEnv.validationEnabled && !noDevEnv.layerPropsOk) = false ∧
      noDevEnv.instanceOk = true ∧ noDevEnv.physDevsOk = true) ∧
    ((noDevEnv.physicalDevices = [] →
      run noDevEnv = (.error .noPhysicalDevice, (fullTrace noDevEnv).take 1) ∧
      Err.message .noPhysicalDevice = some "No physical Device Found" ∧
      Event.createDevice ∉ (run noDevEnv).2 ∧
      Event.createBuffer (value_count * 4) ∉ (run noDevEnv).2) ∧
    (∀ d rest, noDevEnv.physicalDevices = d :: rest → allOk noDevEnv = true →
      (run noDevEnv).2[1]? = some (Event.selectPhysicalDevice d))) :=
  ⟨⟨rfl, rfl, rfl, rfl⟩,
   first_physical_device_selected noDevEnv rfl rfl rfl rfl⟩

/-- C9 counterexample: with validation enabled and the Khronos validation
layer present in the enumeration, the created instance still requests no
layers at all: the `enabled_layer_names` setter's returned struct is
discarded on line 137, so `enabled_layer_names` stays empty and in
particular does not contain `"VK_LAYER_KHRONOS_validation"`.  The
debug‑messenger `p_next` is attached, and the found flag is true yet
irrelevant. -/
theorem validation_layer_never_requested :
    validation_layer_found [validation_layer_name] = true ∧
    (instance_create_info true [validation_layer_name]).hasDebugNext = true ∧
    (instance_create_info true [validation_layer_name]).enabledLayerNames = [] ∧
    validation_layer_name ∉ (instance_create_info true [validation_layer_name]).enabledLayerNames := by
  refine ⟨by decide, rfl, rfl, by decide⟩

/-- C9 amended: when validation is enabled the instance create info is
the same whatever layer enumeration returned (the found flag is never
consulted): the debug‑messenger create info is attached via `p_next`,
but the requested layer list is empty, because line 137 discards the
struct returned by the `enabled_layer_names` setter. -/
theorem debug_messenger_attached_but_no_layers :
    (∀ props props2 : List String,
      instance_create_info true props = instance_create_info true props2) ∧
    (∀ props : List String,
      (instance_create_info true props).hasDebugNext = true ∧
      (instance_create_info true props).enabledLayerNames = []) ∧
    (∀ env : Env, env.validationEnabled = true → allOk env = true →
      Event.createInstance [] true ∈ (run env).2) := by
  refine ⟨fun _ _ => rfl, fun _ => ⟨rfl, rfl⟩, ?_⟩
  intro env hv hall
  rw [run_eq_full env hall]
  simp [fullTrace, hv, instance_create_info, InstanceCreateInfo.empty]

/-- Witness for `debug_messenger_attached_but_no_layers` at the
reference environment with validation enabled. -/
theorem debug_messenger_attached_but_no_layers_witness :
    ({ okEnv with validationEnabled := true } : Env).validationEnabled = true ∧
    allOk { okEnv with validationEnabled := true } = true ∧
    Event.createInstance [] true ∈ (run { okEnv with validationEnabled := true }).2 :=
  ⟨rfl, by decide,
   debug_messenger_attached_but_no_layers.2.2 { okEnv with validationEnabled := true }
     rfl (by decide)⟩

/-- C10: the random channels of lines 69‑71 lie in `0..=254` (the upper
bound 255 of `gen_range(0..255)` is exclusive), alpha is the constant
255, and therefore the packed value of line 73 has most significant byte
255: it lies in `[0xFF000000, 0x100000000)` and its top byte
`value / 0x1000000` is 255. -/
theorem alpha_msb_and_channel_ranges (env : Env) :
    red env ≤ 254 ∧ green env ≤ 254 ∧ blue env ≤ 254 ∧ alpha = 255 ∧
    4278190080 ≤ value env ∧ value env < 4294967296 ∧
    value env / 16777216 = 255 := by
  have hr := red_lt env
  have hg := green_lt env
  have hb := blue_lt env
  have hv := value_eq env
  refine ⟨by omega, by omega, by omega, rfl, by omega, by omega, by omega⟩

/-- Witness for `alpha_msb_and_channel_ranges` at the reference
environment. -/
theorem alpha_msb_and_channel_ranges_witness :
    red okEnv ≤ 254 ∧ green okEnv ≤ 254 ∧ blue okEnv ≤ 254 ∧ alpha = 255 ∧
    4278190080 ≤ value okEnv ∧ value okEnv < 4294967296 ∧
    value okEnv / 16777216 = 255 :=
  alpha_msb_and_channel_ranges okEnv

/-- With the fill placed at buffer offset 0 — the placement the spec
describes — every pixel wholly inside the allocation reads back as the
packed value, so the intended program satisfies the uniform‑image
property. -/
lemma pixel_eq_value_of_offset_zero (env : Env) (h0 : env.allocOffset = 0)
    (hs : env.submitOk = true) (p : ℕ) (hp : 4 * p + 3 < env.allocSize) :
    pixelWord env p = value env := by
  have hv := value_eq env
  have hr := red_lt env
  have hg := green_lt env
  have hb := blue_lt env
  unfold pixelWord mappedByte
  rw [h0]
  rw [if_pos ⟨hs, by omega, by omega⟩, if_pos ⟨hs, by omega, by omega⟩,
    if_pos ⟨hs, by omega, by omega⟩, if_pos ⟨hs, by omega, by omega⟩]
  have e0 : (4 * p - 0) % 4 = 0 := by omega
  have e1 : (4 * p + 1 - 0) % 4 = 1 := by omega
  have e2 : (4 * p + 2 - 0) % 4 = 2 := by omega
  have e3 : (4 * p + 3 - 0) % 4 = 3 := by omega
  rw [e0, e1, e2, e3]
  norm_num
  omega

/-- C1 (code‑bug evaluation): in a successful run whose allocation sits
at offset 4 of its memory block, the saved PNG has the configured
1280 × 720 dimensions but its first pixel does not equal the packed fill
value: `cmd_fill_buffer` receives `dst_offset = allocation.offset()`
(line 235), so the fill skips buffer bytes `0..4` and pixel 0 keeps the
memory's prior contents, while pixel 1 does equal the value. -/
theorem image_not_uniform_at_nonzero_allocation_offset :
    (run offsetEnv).1 = .ok () ∧
    offsetEnv.saveOk = true ∧
    offsetEnv.allocOffset = 4 ∧
    (savedImage offsetEnv).w = 1280 ∧
    (savedImage offsetEnv).h = 720 ∧
    (savedImage offsetEnv).pixel 0 ≠ value offsetEnv ∧
    (savedImage offsetEnv).pixel 1 = value offsetEnv := by
  refine ⟨rfl, rfl, rfl, rfl, rfl, by decide, by decide⟩

end RsDungeon

